import Mathlib

/-!
Verification development for the Tubely upload-to-storage pipeline
(`handler_upload_video.go`, `handler_upload_thumbnail.go`).

Modelling conventions:
* Go strings are embedded as `List Char` (`GoStr`); Go's `+` / `fmt.Sprintf`
  concatenation is `List.append`, `strings.Split` is `splitOnChar`.
* Go `float64` arithmetic in the orientation classifier is embedded as
  IEEE-754 binary64: a double is a `F64` (an exact rational value for a
  finite double, an infinity, or NaN), every arithmetic operation rounds its
  exact rational result to the nearest double with ties to even, division by
  zero yields the signed infinity (NaN for 0/0), and comparisons are false on
  NaN. Go's untyped constants `16.0/9.0`, `9.0/16.0`, `0.05` are evaluated
  exactly and rounded once, as the Go spec prescribes.
* Go `int` is embedded as `Int` (the dimension products involved are far from
  64-bit overflow).
* The external world (auth, record store, ffmpeg/ffprobe exit status, S3) is
  an explicit environment record of collaborator outcomes; each handler is a
  function from the environment to the list of observable events it performs,
  in program order, with Go `defer` cleanups appended LIFO at the return.
-/

set_option maxRecDepth 8000

namespace Tubely

/-- Go strings, embedded as lists of characters. -/
abbrev GoStr := List Char

/-- Model of Go `strings.Split(s, sep)` for a one-character separator:
splits around every occurrence of the separator, keeping empty fields
(`Split("", sep) = [""]`). -/
def splitOnChar (sep : Char) : GoStr → List GoStr
  | [] => [[]]
  | c :: rest =>
    if c = sep then [] :: splitOnChar sep rest
    else
      match splitOnChar sep rest with
      | [] => [[c]]
      | g :: gs => (c :: g) :: gs

/-- Exact rational multiplication, written via `Rat.divInt` so the kernel can
evaluate it (`Rat.mul` is `@[irreducible]`); proved equal to `*` below. -/
def ratMul (a b : ℚ) : ℚ := Rat.divInt (a.num * b.num) ((a.den : Int) * (b.den : Int))

/-- Exact rational subtraction, written via `Rat.divInt` so the kernel can
evaluate it; proved equal to `-` below. -/
def ratSub (a b : ℚ) : ℚ :=
  Rat.divInt (a.num * (b.den : Int) - b.num * (a.den : Int)) ((a.den : Int) * (b.den : Int))

/-- Fuel-driven floor of the base-2 logarithm of a natural number
(`natLog2 0 = natLog2 1 = 0`); written with explicit fuel so the kernel can
evaluate it. -/
def natLog2Aux : Nat → Nat → Nat
  | 0, _ => 0
  | fuel + 1, n => if 2 ≤ n then natLog2Aux fuel (n / 2) + 1 else 0

def natLog2 (n : Nat) : Nat := natLog2Aux n n

/-- `⌊log₂ (n / d)⌋` for positive naturals `n`, `d`. -/
def ilog2 (n d : Nat) : Int :=
  let a := natLog2 n
  let b := natLog2 d
  if b ≤ a then
    (if d * 2 ^ (a - b) ≤ n then ((a - b : Nat) : Int) else ((a - b : Nat) : Int) - 1)
  else
    (if d ≤ n * 2 ^ (b - a) then -((b - a : Nat) : Int) else -((b - a : Nat) : Int) - 1)

/-- An IEEE-754 binary64 value: a finite double carried as its exact rational
value, an infinity with its sign, or a NaN. Signed zeros are collapsed to
`num 0`; the sign of zero is irrelevant to every operation performed here
(the only zero divisor arising is `float64(0) = +0`). -/
inductive F64
  | num (val : ℚ)
  | inf (neg : Bool)
  | nan
deriving DecidableEq

/-- Round the positive rational `n / d` (`n, d > 0`) to the nearest binary64
value with ties to even: the quantum is `2 ^ (e - 52)` for the binade
exponent `e = ⌊log₂ (n/d)⌋` clamped below at the minimum normal exponent
`-1022` (the subnormal range), the mantissa is rounded half-to-even, and a
result of `2^1024` or more overflows to `+Inf`. -/
def roundPosF64 (n d : Nat) : F64 :=
  let e := ilog2 n d
  let e2 := if e ≤ -1022 then (-1022 : Int) else e
  let s := e2 - 52
  let N := if s ≤ 0 then n * 2 ^ (-s).toNat else n
  let D := if s ≤ 0 then d else d * 2 ^ s.toNat
  let q := N / D
  let r := N % D
  let m := if 2 * r < D then q
           else if D < 2 * r then q + 1
           else if q % 2 = 0 then q else q + 1
  if m = 0 then F64.num 0
  else if 970 ≤ s ∧ 2 ^ (1024 - s).toNat ≤ m then F64.inf false
  else if s ≤ 0 then F64.num (Rat.divInt (m : Int) ((2 ^ (-s).toNat : Nat) : Int))
  else F64.num (Rat.divInt (((m * 2 ^ s.toNat : Nat) : Int)) 1)

/-- Round an exact rational to the nearest binary64, ties to even. -/
def roundF64 (x : ℚ) : F64 :=
  if x.num < 0 then
    match roundPosF64 x.num.natAbs x.den with
    | F64.num v => F64.num (Rat.neg v)
    | F64.inf _ => F64.inf true
    | F64.nan => F64.nan
  else if x.num = 0 then F64.num 0
  else roundPosF64 x.num.natAbs x.den

/-- Go `float64(w)` for an integer `w` (rounds to nearest for `|w| ≥ 2^53`). -/
def intToF64 (w : Int) : F64 := roundF64 (Rat.divInt w 1)

/-- Exact rational quotient, written via `Rat.divInt` so the kernel can
evaluate it. -/
def ratDivQ (a b : ℚ) : ℚ := Rat.divInt (a.num * (b.den : Int)) ((a.den : Int) * b.num)

/-- IEEE binary64 division, correctly rounded; division by zero follows Go:
`x/0.0` is `±Inf` for `x ≠ 0` and NaN for `0/0.0`. -/
def F64.div : F64 → F64 → F64
  | F64.nan, _ => F64.nan
  | _, F64.nan => F64.nan
  | F64.inf _, F64.inf _ => F64.nan
  | F64.inf s, F64.num b => F64.inf (s != decide (b < 0))
  | F64.num _, F64.inf _ => F64.num 0
  | F64.num a, F64.num b =>
    if b = 0 then (if a = 0 then F64.nan else F64.inf (decide (a < 0)))
    else roundF64 (ratDivQ a b)

/-- IEEE binary64 subtraction, correctly rounded. -/
def F64.sub : F64 → F64 → F64
  | F64.nan, _ => F64.nan
  | _, F64.nan => F64.nan
  | F64.inf s, F64.inf t => if s = t then F64.nan else F64.inf s
  | F64.inf s, F64.num _ => F64.inf s
  | F64.num _, F64.inf t => F64.inf (!t)
  | F64.num a, F64.num b => roundF64 (ratSub a b)

/-- IEEE binary64 multiplication, correctly rounded. -/
def F64.mul : F64 → F64 → F64
  | F64.nan, _ => F64.nan
  | _, F64.nan => F64.nan
  | F64.inf s, F64.inf t => F64.inf (s != t)
  | F64.inf s, F64.num b => if b = 0 then F64.nan else F64.inf (s != decide (b < 0))
  | F64.num a, F64.inf t => if a = 0 then F64.nan else F64.inf (t != decide (a < 0))
  | F64.num a, F64.num b => roundF64 (ratMul a b)

/-- Go `math.Abs`: clears the sign; `Abs(NaN) = NaN`, `Abs(±Inf) = +Inf`. -/
def F64.abs : F64 → F64
  | F64.nan => F64.nan
  | F64.inf _ => F64.inf false
  | F64.num a => F64.num (if a < 0 then Rat.neg a else a)

/-- IEEE `<=`: false whenever an operand is NaN. -/
def F64.le : F64 → F64 → Bool
  | F64.nan, _ => false
  | _, F64.nan => false
  | F64.inf s, F64.inf t => s || !t
  | F64.inf s, F64.num _ => s
  | F64.num _, F64.inf t => !t
  | F64.num a, F64.num b => decide (a ≤ b)

/-- The Go constant expression `16.0/9.0`: untyped constants are evaluated
exactly and rounded once to `float64` on use. -/
def fl16Of9 : F64 := roundF64 (Rat.divInt 16 9)

/-- The Go constant expression `9.0/16.0`. -/
def fl9Of16 : F64 := roundF64 (Rat.divInt 9 16)

/-- The Go literal `0.05` as a `float64` (the nearest double to `1/20`). -/
def fl005 : F64 := roundF64 (Rat.divInt 5 100)

/-- Source `isApproximately` (handler_upload_video.go lines 70-76):
`tolerance := 0.05; allowedDiff := expected * tolerance;
return math.Abs(actual-expected) <= allowedDiff`, in IEEE-754 binary64
arithmetic. -/
def isApproximately (actual expected : F64) : Bool :=
  let tolerance : F64 := fl005
  let allowedDiff := F64.mul expected tolerance
  F64.le (F64.abs (F64.sub actual expected)) allowedDiff

/-- Source classification block of `getVideoAspectRatio`
(handler_upload_video.go lines 58-66): exact cross-multiplication first,
then the 5% tolerance band in `float64` arithmetic
(`float64(width)/float64(height)` against `16.0/9.0`), landscape before
portrait, default `"other"`. -/
def classifyDims (width height : Int) : GoStr :=
  if width * 9 == height * 16
      || isApproximately (F64.div (intToF64 width) (intToF64 height)) fl16Of9 then
    ("16:9").toList
  else if width * 16 == height * 9
      || isApproximately (F64.div (intToF64 width) (intToF64 height)) fl9Of16 then
    ("9:16").toList
  else
    ("other").toList

/-- Source `Stream` struct: the consumed fields of one ffprobe stream entry. -/
structure Stream where
  width : Int
  height : Int
deriving DecidableEq

/-- Source `FFProbeResult` struct. -/
structure FFProbeResult where
  streams : List Stream
deriving DecidableEq

/-- Consume whitespace, as `encoding/json` does between tokens. -/
def skipWs : GoStr → GoStr
  | [] => []
  | c :: rest =>
    if c = ' ' ∨ c = '\n' ∨ c = '\t' ∨ c = '\r' then skipWs rest else c :: rest

/-- Consume an exact literal, returning the remainder, or fail. -/
def dropLit : GoStr → GoStr → Option GoStr
  | [], s => some s
  | _ :: _, [] => none
  | l :: ls, c :: cs => if c = l then dropLit ls cs else none

/-- Take a maximal run of decimal digits. -/
def takeDigits : GoStr → List Char × GoStr
  | [] => ([], [])
  | c :: cs =>
    if c.isDigit then
      match takeDigits cs with
      | (ds, r) => (c :: ds, r)
    else ([], c :: cs)

/-- Decimal digits to a natural number. -/
def digitsToNat (ds : List Char) : Nat :=
  List.foldl (fun a c => a * 10 + (c.toNat - 48)) 0 ds

/-- Parse a (possibly negative) JSON integer. -/
def parseJsonInt : GoStr → Option (Int × GoStr)
  | '-' :: rest =>
    match takeDigits rest with
    | ([], _) => none
    | (ds, r) => some (-(digitsToNat ds : Int), r)
  | s =>
    match takeDigits s with
    | ([], _) => none
    | (ds, r) => some ((digitsToNat ds : Int), r)

/-- Parse one ffprobe stream object of the shape
`\x7b"width": w, "height": h\x7d` (with arbitrary whitespace). -/
def parseStreamObj (s : GoStr) : Option (Stream × GoStr) := do
  let s ← dropLit (("\x7b").toList) (skipWs s)
  let s ← dropLit (("\"width\"").toList) (skipWs s)
  let s ← dropLit ((":").toList) (skipWs s)
  let (w, s) ← parseJsonInt (skipWs s)
  let s ← dropLit ((",").toList) (skipWs s)
  let s ← dropLit (("\"height\"").toList) (skipWs s)
  let s ← dropLit ((":").toList) (skipWs s)
  let (h, s) ← parseJsonInt (skipWs s)
  let s ← dropLit (("\x7d").toList) (skipWs s)
  some (⟨w, h⟩, s)

/-- Parse a comma-separated non-empty sequence of stream objects
(fuel-bounded; the fuel is the remaining input length plus one). -/
def parseStreamsAux : Nat → GoStr → Option (List Stream × GoStr)
  | 0, _ => none
  | fuel + 1, s =>
    match parseStreamObj s with
    | none => none
    | some (st, s1) =>
      match skipWs s1 with
      | ',' :: rest =>
        match parseStreamsAux fuel rest with
        | none => none
        | some (sts, r) => some (st :: sts, r)
      | s2 => some ([st], s2)

/-- Model of Go `encoding/json.Unmarshal` into `FFProbeResult`, restricted to
the JSON shapes this development exercises: the standard library fails on
empty input with a syntax error (`"unexpected end of JSON input"`), fails on
input that is not a well-formed object, and succeeds on an object carrying a
(possibly empty) `"streams"` array of `width`/`height` objects, leaving the
streams list empty when the array is empty or the field is absent. -/
def jsonUnmarshalFFProbe (s : GoStr) : Except GoStr FFProbeResult :=
  let t := skipWs s
  if t = [] then Except.error (("unexpected end of JSON input").toList)
  else
    let parsed : Option (List Stream) := do
      let s1 ← dropLit (("\x7b").toList) t
      let s2 := skipWs s1
      match dropLit (("\x7d").toList) s2 with
      | some s3 => if skipWs s3 = [] then some [] else none
      | none => do
        let s3 ← dropLit (("\"streams\"").toList) s2
        let s4 ← dropLit ((":").toList) (skipWs s3)
        let s5 ← dropLit (("[").toList) (skipWs s4)
        let s6 := skipWs s5
        match dropLit (("]").toList) s6 with
        | some s7 => do
          let s8 ← dropLit (("\x7d").toList) (skipWs s7)
          if skipWs s8 = [] then some [] else none
        | none =>
          match parseStreamsAux (s6.length + 1) s6 with
          | none => none
          | some (sts, r) => do
            let r1 ← dropLit (("]").toList) (skipWs r)
            let r2 ← dropLit (("\x7d").toList) (skipWs r1)
            if skipWs r2 = [] then some sts else none
    match parsed with
    | none => Except.error (("invalid character in JSON input").toList)
    | some sts => Except.ok ⟨sts⟩

/-- Outcome of one external command invocation: `runErr` is the error of
`cmd.Run()` (`none` for a zero exit), `stdout` the captured standard output. -/
structure CmdResult where
  runErr : Option GoStr
  stdout : GoStr

/-- Source `getVideoAspectRatio` (handler_upload_video.go lines 34-68), with
the ffprobe invocation abstracted into its observable `CmdResult`: propagate
a `Run` error, unmarshal the captured stdout, fail with
`"no streams found in the video file"` on an empty stream list, and otherwise
classify `Streams[0]`'s dimensions. -/
def getVideoAspectRatio (c : CmdResult) : Except GoStr GoStr :=
  match c.runErr with
  | some e => Except.error e
  | none =>
    match jsonUnmarshalFFProbe c.stdout with
    | Except.error e => Except.error e
    | Except.ok result =>
      match result.streams with
      | [] => Except.error (("no streams found in the video file").toList)
      | s :: _ => Except.ok (classifyDims s.width s.height)

/-- Model of `database.Video` (the fields the handlers touch; the embedded
`CreateVideoParams` of the Go struct is flattened). Timestamps are opaque. -/
structure Video where
  id : GoStr
  createdAt : Nat
  updatedAt : Nat
  thumbnailURL : Option GoStr
  videoURL : Option GoStr
  title : GoStr
  description : GoStr
  userID : GoStr
deriving DecidableEq

/-- Observable actions of a handler run, in program order: local scratch-file
creation/write/deletion, external tool invocations, object-store puts, record
writes (carrying the URL value written), and the HTTP response. -/
inductive Event
  | createFile (path : GoStr)
  | writeFile (path : GoStr)
  | remuxCall (input output : GoStr)
  | probeCall (path : GoStr)
  | putObject (bucket key : GoStr)
  | updateRecord (url : GoStr)
  | removeFile (path : GoStr)
  | respondErr (status : Nat)
  | respondOK (video : Video)
deriving DecidableEq

/-- Model of `apiConfig`: the bucket name, whether the S3 client is non-nil,
the storage backend's presigning outcome (a function of bucket, key and
expiry), the assets root and the port. -/
structure ApiCfg where
  s3Bucket : GoStr
  s3ClientPresent : Bool
  presign : GoStr → GoStr → Int → Except GoStr GoStr
  assetsRoot : GoStr
  port : Nat

/-- Go `time.Minute` in nanoseconds. -/
def timeMinute : Int := 60000000000

/-- Source `generatePresignedURL` (handler_upload_video.go lines 240-260):
error when the S3 client is nil, otherwise delegate to the backend's
presigning operation, wrapping its error. -/
def generatePresignedURL (cfg : ApiCfg) (bucket key : GoStr) (expireTime : Int) :
    Except GoStr GoStr :=
  if cfg.s3ClientPresent = false then Except.error (("s3Client is nil").toList)
  else
    match cfg.presign bucket key expireTime with
    | Except.error e => Except.error ((("couldn't create presigned URL: ").toList) ++ e)
    | Except.ok url => Except.ok url

/-- Source `dbVideoToSignedVideo` (handler_upload_video.go lines 262-288),
returning the Go pair `(database.Video, error)` as `Video × Option GoStr`:
a nil URL is returned as is; a stored URL that does not split on `","` into
exactly two parts is an error with the original video; otherwise a presigned
URL for the split bucket/key with a 15-minute expiry replaces the URL field
in a copy of the video. -/
def dbVideoToSignedVideo (cfg : ApiCfg) (video : Video) : Video × Option GoStr :=
  match video.videoURL with
  | none => (video, none)
  | some url =>
    let parts := splitOnChar ',' url
    if parts.length ≠ 2 then
      (video, some ((("invalid video URL format: ").toList) ++ url))
    else
      let bucket := parts.getD 0 []
      let key := parts.getD 1 []
      match generatePresignedURL cfg bucket key (15 * timeMinute) with
      | Except.error e => (video, some e)
      | Except.ok presignedURL => ({ video with videoURL := some presignedURL }, none)

/-- The allow-listed video content type, `"video/mp4"`. -/
def mp4MediaType : GoStr := ("video/mp4").toList

/-- The allow-listed thumbnail content type `"image/jpeg"`. -/
def jpegMediaType : GoStr := ("image/jpeg").toList

/-- The allow-listed thumbnail content type `"image/png"`. -/
def pngMediaType : GoStr := ("image/png").toList

/-- Source `switch aspectRatio` (handler_upload_video.go lines 168-176):
the category-derived key directory. -/
def dirFor (aspect : GoStr) : GoStr :=
  if aspect = ("16:9").toList then ("landscape/").toList
  else if aspect = ("9:16").toList then ("portrait/").toList
  else ("other/").toList

/-- Collaborator outcomes for one `handlerUploadVideo` request: validity of
the path id, auth results, the record-store lookup, multipart-form and
content-type parsing, the declared media type, local file operations, the
external tool exits, the ffprobe output, and the S3 outcomes. -/
structure UploadEnv where
  validID : Bool
  videoIDStr : GoStr
  tokenOk : Bool
  jwtOk : Bool
  userID : GoStr
  getVideo : Option Video
  formFileOk : Bool
  ctParseOk : Bool
  mediaType : GoStr
  createTempOk : Bool
  tempName : GoStr
  copyOk : Bool
  remuxExitOk : Bool
  seekOk : Bool
  probeExitErr : Option GoStr
  probeStdout : GoStr
  openProcessedOk : Bool
  putOk : Bool
  updateOk : Bool

/-- The two deferred `os.Remove` calls of `handlerUploadVideo` (temp file,
line 138; processed file, line 154) run LIFO at every return after both are
registered: the processed file is removed first, then the temp file. -/
def cleanupBoth (tempPath procPath : GoStr) : List Event :=
  [Event.removeFile procPath, Event.removeFile tempPath]

/-- Source lines 202-217 of `handlerUploadVideo`: store the `bucket,key`
reference in the record's URL field, update the record in the database, sign
the stored reference and respond with the signed video. -/
def uploadFinish (cfg : ApiCfg) (env : UploadEnv) (video : Video)
    (key tempPath procPath : GoStr) : List Event :=
  let bucketKeyString := cfg.s3Bucket ++ (",").toList ++ key
  Event.updateRecord bucketKeyString ::
  (if env.updateOk = false then Event.respondErr 500 :: cleanupBoth tempPath procPath
   else
    match dbVideoToSignedVideo cfg { video with videoURL := some bucketKeyString } with
    | (_, some _) => Event.respondErr 500 :: cleanupBoth tempPath procPath
    | (signedVideo, none) => Event.respondOK signedVideo :: cleanupBoth tempPath procPath)

/-- Source lines 180-200 of `handlerUploadVideo`: open the processed file and
put it to the object store under the computed key. -/
def uploadPut (cfg : ApiCfg) (env : UploadEnv) (video : Video)
    (key tempPath procPath : GoStr) : List Event :=
  if env.openProcessedOk = false then Event.respondErr 500 :: cleanupBoth tempPath procPath
  else
    Event.putObject cfg.s3Bucket key ::
    (if env.putOk = false then Event.respondErr 500 :: cleanupBoth tempPath procPath
     else uploadFinish cfg env video key tempPath procPath)

/-- Source lines 156-178 of `handlerUploadVideo`: seek the temp file, probe
it with `getVideoAspectRatio`, select the key directory from the aspect and
build the key `prefix + videoID + ".mp4"`. -/
def uploadProbe (cfg : ApiCfg) (env : UploadEnv) (video : Video)
    (tempPath procPath : GoStr) : List Event :=
  if env.seekOk = false then Event.respondErr 500 :: cleanupBoth tempPath procPath
  else
    Event.probeCall tempPath ::
    (match getVideoAspectRatio ⟨env.probeExitErr, env.probeStdout⟩ with
     | Except.error _ => Event.respondErr 500 :: cleanupBoth tempPath procPath
     | Except.ok aspectRat =>
       uploadPut cfg env video (dirFor aspectRat ++ env.videoIDStr ++ (".mp4").toList)
         tempPath procPath)

/-- Source lines 132-154 of `handlerUploadVideo`: create the temp file
(deferring its removal), copy the upload into it, and remux it with
`processVideoForFastStart` (lines 220-238), which writes the new staged file
`tempName + ".processing"` on a zero exit and defers its removal. -/
def uploadStage (cfg : ApiCfg) (env : UploadEnv) (video : Video) : List Event :=
  let tempPath := env.tempName
  let procPath := env.tempName ++ (".processing").toList
  Event.createFile tempPath ::
  (if env.copyOk = false then [Event.respondErr 500, Event.removeFile tempPath]
   else
    Event.writeFile tempPath ::
    Event.remuxCall tempPath procPath ::
    (if env.remuxExitOk = false then [Event.respondErr 500, Event.removeFile tempPath]
     else Event.createFile procPath :: uploadProbe cfg env video tempPath procPath))

/-- Source `handlerUploadVideo` (handler_upload_video.go lines 78-218) as the
list of events it performs, in program order: path/auth validation, the
record-store lookup, the ownership check, multipart and content-type
validation (allow-list `video/mp4` only), then the staged pipeline
`uploadStage → uploadProbe → uploadPut → uploadFinish`. -/
def handlerUploadVideo (cfg : ApiCfg) (env : UploadEnv) : List Event :=
  if env.validID = false then [Event.respondErr 400]
  else if env.tokenOk = false then [Event.respondErr 401]
  else if env.jwtOk = false then [Event.respondErr 401]
  else
    match env.getVideo with
    | none => [Event.respondErr 404]
    | some video =>
      if video.userID ≠ env.userID then [Event.respondErr 401]
      else if env.formFileOk = false then [Event.respondErr 400]
      else if env.ctParseOk = false then [Event.respondErr 400]
      else if env.mediaType ≠ mp4MediaType then [Event.respondErr 400]
      else if env.createTempOk = false then [Event.respondErr 500]
      else uploadStage cfg env video

/-- Collaborator outcomes for one `handlerUploadThumbnail` request. -/
structure ThumbEnv where
  validID : Bool
  videoIDStr : GoStr
  tokenOk : Bool
  jwtOk : Bool
  userID : GoStr
  formFileOk : Bool
  ctParseOk : Bool
  mediaType : GoStr
  createOk : Bool
  copyOk : Bool
  getVideo : Option Video
deriving DecidableEq

/-- Source extension selection (handler_upload_thumbnail lines 60-66). -/
def extFor (mediaType : GoStr) : GoStr :=
  if mediaType = jpegMediaType then ("jpg").toList
  else if mediaType = pngMediaType then ("png").toList
  else []

/-- Source `handlerUploadThumbnail` (the unnamed source file, lines 17-110) as
the list of events it performs, in program order. `filepath.Join` is embedded
as joining with `"/"`. Note the source creates and writes the asset file
(lines 70-81) before it fetches the video record and checks ownership
(lines 83-92), and registers no deletion for it. -/
def handlerUploadThumbnail (cfg : ApiCfg) (env : ThumbEnv) : List Event :=
  if env.validID = false then [Event.respondErr 400]
  else if env.tokenOk = false then [Event.respondErr 401]
  else if env.jwtOk = false then [Event.respondErr 401]
  else if env.formFileOk = false then [Event.respondErr 400]
  else if env.ctParseOk = false then [Event.respondErr 400]
  else if env.mediaType ≠ jpegMediaType ∧ env.mediaType ≠ pngMediaType then
    [Event.respondErr 400]
  else
    let fileName := env.videoIDStr ++ (".").toList ++ extFor env.mediaType
    let filePath := cfg.assetsRoot ++ ("/").toList ++ fileName
    if env.createOk = false then [Event.respondErr 500]
    else
      Event.createFile filePath ::
      (if env.copyOk = false then [Event.respondErr 500]
       else
        Event.writeFile filePath ::
        (match env.getVideo with
         | none => [Event.respondErr 404]
         | some video =>
           if video.userID ≠ env.userID then [Event.respondErr 401]
           else
             let thumbnailURL := ("http://localhost:").toList ++ Nat.toDigits 10 cfg.port
               ++ ("/assets/").toList ++ fileName
             Event.updateRecord thumbnailURL ::
             [Event.respondOK { video with thumbnailURL := some thumbnailURL }]))

/-- Effect of one event on the set of locally present scratch files
(paths listed, most recent first). -/
def applyEvent (fs : List GoStr) : Event → List GoStr
  | Event.createFile p => p :: fs
  | Event.removeFile p => fs.filter (fun q => q ≠ p)
  | _ => fs

/-- The scratch files present after a run, starting from `fs`. -/
def runFS (fs : List GoStr) (tr : List Event) : List GoStr :=
  List.foldl applyEvent fs tr

/-- Concrete fixtures used by the closed witness and counterexample
statements. -/
def videoA : Video where
  id := ("vid1").toList
  createdAt := 0
  updatedAt := 0
  thumbnailURL := none
  videoURL := none
  title := ("title").toList
  description := ("desc").toList
  userID := ("alice").toList

def cfgA : ApiCfg where
  s3Bucket := ("bkt").toList
  s3ClientPresent := true
  presign := fun bucket key _ => Except.ok (("signed-").toList ++ bucket ++ ("-").toList ++ key)
  assetsRoot := ("assets").toList
  port := 8080

/-- A well-formed ffprobe stdout describing one 1280x720 stream. -/
def jsonOkOut : GoStr :=
  ("\x7b\"streams\": [\x7b\"width\": 1280, \"height\": 720\x7d]\x7d").toList

def envA : UploadEnv where
  validID := true
  videoIDStr := ("vid1").toList
  tokenOk := true
  jwtOk := true
  userID := ("alice").toList
  getVideo := some videoA
  formFileOk := true
  ctParseOk := true
  mediaType := mp4MediaType
  createTempOk := true
  tempName := ("tmpfile").toList
  copyOk := true
  remuxExitOk := true
  seekOk := true
  probeExitErr := none
  probeStdout := jsonOkOut
  openProcessedOk := true
  putOk := true
  updateOk := true

def envT : ThumbEnv where
  validID := true
  videoIDStr := ("vid1").toList
  tokenOk := true
  jwtOk := true
  userID := ("bob").toList
  formFileOk := true
  ctParseOk := true
  mediaType := pngMediaType
  createOk := true
  copyOk := true
  getVideo := some videoA

/-- The orientation classification as the amended claim C1 words it:
landscape when `width*9 == height*16` or the `float64` comparison
`|fl(width)/fl(height) − fl(16/9)| ≤ fl(16/9) · fl(0.05)` holds; otherwise
portrait under the symmetric double-precision test against `9/16`; otherwise
other — exact test before tolerance test, landscape tests before portrait
tests. Spelled directly with the IEEE-754 operations, to be compared against
the source-translated `classifyDims`. -/
def classifySpec64 (width height : Int) : GoStr :=
  if width * 9 = height * 16 ∨
      F64.le (F64.abs (F64.sub (F64.div (intToF64 width) (intToF64 height)) fl16Of9))
        (F64.mul fl16Of9 fl005) = true then
    ("16:9").toList
  else if width * 16 = height * 9 ∨
      F64.le (F64.abs (F64.sub (F64.div (intToF64 width) (intToF64 height)) fl9Of16))
        (F64.mul fl9Of16 fl005) = true then
    ("9:16").toList
  else
    ("other").toList

/-- A well-formed ffprobe stdout whose single stream has height 0. -/
def jsonZeroHeight : GoStr :=
  ("\x7b\"streams\": [\x7b\"width\": 100, \"height\": 0\x7d]\x7d").toList

/-- A well-formed ffprobe stdout with an empty streams array. -/
def jsonEmptyStreams : GoStr := ("\x7b\"streams\": []\x7d").toList

/-- An upload request declaring a non-allow-listed content type. -/
def envBadType : UploadEnv := { envA with mediaType := ("video/avi").toList }

/-- A video whose stored URL has no comma, so it does not split into two. -/
def videoBadURL : Video := { videoA with videoURL := some (("nocomma").toList) }

/-- A video storing a well-formed bucket/key reference. -/
def videoRefURL : Video :=
  { videoA with videoURL := some (("bkt,landscape/vid1.mp4").toList) }

/-- Event classifiers used to state trace properties. -/
def isCreateB : Event → Bool
  | Event.createFile _ => true
  | _ => false

def isProbeB : Event → Bool
  | Event.probeCall _ => true
  | _ => false

def isRemuxB : Event → Bool
  | Event.remuxCall _ _ => true
  | _ => false

def isPutB : Event → Bool
  | Event.putObject _ _ => true
  | _ => false

def isUpdateB : Event → Bool
  | Event.updateRecord _ => true
  | _ => false


theorem filter_pair_clears (t p : GoStr) :
    (([p, t].filter fun q => q ≠ p).filter fun q => q ≠ t) = [] := by
  by_cases h : t = p
  · subst h; simp
  · simp [List.filter, h]

theorem uploadFinish_runFS (cfg : ApiCfg) (env : UploadEnv) (video : Video)
    (key t p : GoStr) (l : List GoStr) :
    runFS l (uploadFinish cfg env video key t p) =
      ((l.filter fun q => q ≠ p).filter fun q => q ≠ t) := by
  unfold uploadFinish
  dsimp only
  split
  · rfl
  · split <;> rfl

theorem uploadPut_runFS (cfg : ApiCfg) (env : UploadEnv) (video : Video)
    (key t p : GoStr) (l : List GoStr) :
    runFS l (uploadPut cfg env video key t p) =
      ((l.filter fun q => q ≠ p).filter fun q => q ≠ t) := by
  unfold uploadPut
  split
  · rfl
  · split
    · rfl
    · exact uploadFinish_runFS cfg env video key t p l

theorem uploadProbe_runFS (cfg : ApiCfg) (env : UploadEnv) (video : Video)
    (t p : GoStr) (l : List GoStr) :
    runFS l (uploadProbe cfg env video t p) =
      ((l.filter fun q => q ≠ p).filter fun q => q ≠ t) := by
  unfold uploadProbe
  split
  · rfl
  · split
    · rfl
    · exact uploadPut_runFS cfg env video _ t p l

theorem uploadStage_runFS (cfg : ApiCfg) (env : UploadEnv) (video : Video) :
    runFS [] (uploadStage cfg env video) = [] := by
  unfold uploadStage
  dsimp only
  split
  · simp [runFS, applyEvent]
  · split
    · simp [runFS, applyEvent]
    · exact (uploadProbe_runFS cfg env video env.tempName
        (env.tempName ++ (".processing").toList)
        [env.tempName ++ (".processing").toList, env.tempName]).trans
        (filter_pair_clears _ _)

/-- C3: for every run of the upload-video pipeline, successful or failed at
any stage, every scratch file created during the run (the staged upload copy
and the remuxed output) has been removed from the filesystem by the time the
run returns: the final local file set is empty. -/
theorem c3_no_scratch_file_leak (cfg : ApiCfg) (env : UploadEnv) :
    runFS [] (handlerUploadVideo cfg env) = [] := by
  unfold handlerUploadVideo
  repeat' split
  all_goals first
    | rfl
    | exact uploadStage_runFS cfg env _

/-- C2 counterexample: in a concrete fully successful run the trace contains
both the remux and the probe invocation, and the remux invocation comes
strictly earlier — refuting the claim that the Media Prober is invoked before
the Stream Remuxer. -/
theorem c2_counterexample_remux_first :
    (handlerUploadVideo cfgA envA).any isProbeB = true ∧
    (handlerUploadVideo cfgA envA).any isRemuxB = true ∧
    (handlerUploadVideo cfgA envA).findIdx isRemuxB <
      (handlerUploadVideo cfgA envA).findIdx isProbeB := by decide

/-- C2 amended: whenever the pipeline invokes the Media Prober at all, the
trace begins with staging followed immediately by the remux invocation, and
every probe invocation occurs only after it: the order is
Staged → Remuxed → Probed. -/
theorem c2_remux_precedes_probe (cfg : ApiCfg) (env : UploadEnv)
    (h : (handlerUploadVideo cfg env).any isProbeB = true) :
    ∃ rest, handlerUploadVideo cfg env =
      Event.createFile env.tempName :: Event.writeFile env.tempName ::
        Event.remuxCall env.tempName (env.tempName ++ (".processing").toList) :: rest ∧
      rest.any isProbeB = true := by
  by_cases h1 : env.validID = false
  · simp [handlerUploadVideo, h1, isProbeB] at h
  by_cases h2 : env.tokenOk = false
  · simp [handlerUploadVideo, h1, h2, isProbeB] at h
  by_cases h3 : env.jwtOk = false
  · simp [handlerUploadVideo, h1, h2, h3, isProbeB] at h
  cases hg : env.getVideo with
  | none => simp [handlerUploadVideo, h1, h2, h3, hg, isProbeB] at h
  | some video =>
    by_cases ho : video.userID = env.userID
    case neg => simp [handlerUploadVideo, h1, h2, h3, hg, ho, isProbeB] at h
    by_cases h4 : env.formFileOk = false
    · simp [handlerUploadVideo, h1, h2, h3, hg, ho, h4, isProbeB] at h
    by_cases h5 : env.ctParseOk = false
    · simp [handlerUploadVideo, h1, h2, h3, hg, ho, h4, h5, isProbeB] at h
    by_cases hm : env.mediaType = mp4MediaType
    case neg => simp [handlerUploadVideo, h1, h2, h3, hg, ho, h4, h5, hm, isProbeB] at h
    by_cases h6 : env.createTempOk = false
    · simp [handlerUploadVideo, h1, h2, h3, hg, ho, h4, h5, hm, h6, isProbeB] at h
    by_cases h7 : env.copyOk = false
    · simp [handlerUploadVideo, uploadStage, h1, h2, h3, hg, ho, h4, h5, hm, h6, h7,
      isProbeB] at h
    by_cases h8 : env.remuxExitOk = false
    · simp [handlerUploadVideo, uploadStage, h1, h2, h3, hg, ho, h4, h5, hm, h6, h7, h8,
      isProbeB] at h
    refine ⟨Event.createFile (env.tempName ++ (".processing").toList) ::
      uploadProbe cfg env video env.tempName (env.tempName ++ (".processing").toList),
      ?_, ?_⟩
    · simp [handlerUploadVideo, uploadStage, h1, h2, h3, hg, ho, h4, h5, hm, h6, h7, h8]
    · simp [handlerUploadVideo, uploadStage, h1, h2, h3, hg, ho, h4, h5, hm, h6, h7, h8,
        isProbeB] at h
      simpa [isProbeB] using h

theorem c2_remux_precedes_probe_witness :
    ∃ rest, handlerUploadVideo cfgA envA =
      Event.createFile envA.tempName :: Event.writeFile envA.tempName ::
        Event.remuxCall envA.tempName (envA.tempName ++ (".processing").toList) :: rest ∧
      rest.any isProbeB = true :=
  c2_remux_precedes_probe cfgA envA (by decide)

/-- C4: if the declared content type is not the allow-listed `video/mp4`, or
the requester is not the recorded owner of the target record, the
upload-video handler creates no staged file and never invokes the object
store. -/
theorem c4_reject_before_staging (cfg : ApiCfg) (env : UploadEnv)
    (h : env.mediaType ≠ mp4MediaType ∨
         ∀ v, env.getVideo = some v → v.userID ≠ env.userID) :
    (handlerUploadVideo cfg env).any isCreateB = false ∧
    (handlerUploadVideo cfg env).any isPutB = false := by
  by_cases h1 : env.validID = false
  · simp [handlerUploadVideo, h1, isCreateB, isPutB]
  by_cases h2 : env.tokenOk = false
  · simp [handlerUploadVideo, h1, h2, isCreateB, isPutB]
  by_cases h3 : env.jwtOk = false
  · simp [handlerUploadVideo, h1, h2, h3, isCreateB, isPutB]
  cases hg : env.getVideo with
  | none => simp [handlerUploadVideo, h1, h2, h3, hg, isCreateB, isPutB]
  | some video =>
    by_cases ho : video.userID = env.userID
    case neg => simp [handlerUploadVideo, h1, h2, h3, hg, ho, isCreateB, isPutB]
    by_cases h4 : env.formFileOk = false
    · simp [handlerUploadVideo, h1, h2, h3, hg, ho, h4, isCreateB, isPutB]
    by_cases h5 : env.ctParseOk = false
    · simp [handlerUploadVideo, h1, h2, h3, hg, ho, h4, h5, isCreateB, isPutB]
    by_cases hm : env.mediaType = mp4MediaType
    case neg =>
      simp [handlerUploadVideo, h1, h2, h3, hg, ho, h4, h5, hm, isCreateB, isPutB]
    rcases h with hmt | hown
    · exact (hmt hm).elim
    · exact ((hown video hg) ho).elim

/-- C5: if the trace of an upload-video run contains a record update at all,
then the object-store put succeeded (`putOk`) and the put event occurs
strictly before the update event — so a run that fails at any stage up to and
including the upload leaves the record unmodified and can be resubmitted
safely. -/
theorem c5_no_record_update_without_upload (cfg : ApiCfg) (env : UploadEnv)
    (h : (handlerUploadVideo cfg env).any isUpdateB = true) :
    env.putOk = true ∧
    (handlerUploadVideo cfg env).any isPutB = true ∧
    (handlerUploadVideo cfg env).findIdx isPutB <
      (handlerUploadVideo cfg env).findIdx isUpdateB := by
  by_cases h1 : env.validID = false
  · simp [handlerUploadVideo, h1, isUpdateB] at h
  by_cases h2 : env.tokenOk = false
  · simp [handlerUploadVideo, h1, h2, isUpdateB] at h
  by_cases h3 : env.jwtOk = false
  · simp [handlerUploadVideo, h1, h2, h3, isUpdateB] at h
  cases hg : env.getVideo with
  | none => simp [handlerUploadVideo, h1, h2, h3, hg, isUpdateB] at h
  | some video =>
    by_cases ho : video.userID = env.userID
    case neg => simp [handlerUploadVideo, h1, h2, h3, hg, ho, isUpdateB] at h
    by_cases h4 : env.formFileOk = false
    · simp [handlerUploadVideo, h1, h2, h3, hg, ho, h4, isUpdateB] at h
    by_cases h5 : env.ctParseOk = false
    · simp [handlerUploadVideo, h1, h2, h3, hg, ho, h4, h5, isUpdateB] at h
    by_cases hm : env.mediaType = mp4MediaType
    case neg => simp [handlerUploadVideo, h1, h2, h3, hg, ho, h4, h5, hm, isUpdateB] at h
    by_cases h6 : env.createTempOk = false
    · simp [handlerUploadVideo, h1, h2, h3, hg, ho, h4, h5, hm, h6, isUpdateB] at h
    by_cases h7 : env.copyOk = false
    · simp [handlerUploadVideo, uploadStage, h1, h2, h3, hg, ho, h4, h5, hm, h6, h7,
      isUpdateB] at h
    by_cases h8 : env.remuxExitOk = false
    · simp [handlerUploadVideo, uploadStage, h1, h2, h3, hg, ho, h4, h5, hm, h6, h7, h8,
      isUpdateB] at h
    by_cases h9 : env.seekOk = false
    · simp [handlerUploadVideo, uploadStage, uploadProbe, h1, h2, h3, hg, ho, h4, h5, hm,
      h6, h7, h8, h9, cleanupBoth, isUpdateB] at h
    cases hpr : getVideoAspectRatio ⟨env.probeExitErr, env.probeStdout⟩ with
    | error e =>
      simp [handlerUploadVideo, uploadStage, uploadProbe, h1, h2, h3, hg, ho, h4, h5, hm,
        h6, h7, h8, h9, hpr, cleanupBoth, isUpdateB] at h
    | ok aspect =>
      by_cases h10 : env.openProcessedOk = false
      · simp [handlerUploadVideo, uploadStage, uploadProbe, uploadPut, h1, h2, h3, hg, ho,
          h4, h5, hm, h6, h7, h8, h9, hpr, h10, cleanupBoth, isUpdateB] at h
      by_cases h11 : env.putOk = false
      · simp [handlerUploadVideo, uploadStage, uploadProbe, uploadPut, h1, h2, h3, hg, ho,
          h4, h5, hm, h6, h7, h8, h9, hpr, h10, h11, cleanupBoth, isUpdateB] at h
      refine ⟨by simpa using h11, ?_, ?_⟩
      · simp [handlerUploadVideo, uploadStage, uploadProbe, uploadPut, h1, h2, h3, hg, ho,
          h4, h5, hm, h6, h7, h8, h9, hpr, h10, h11, isPutB]
      · simp [handlerUploadVideo, uploadStage, uploadProbe, uploadPut, uploadFinish, h1,
          h2, h3, hg, ho, h4, h5, hm, h6, h7, h8, h9, hpr, h10, h11, List.findIdx_cons,
          isPutB, isUpdateB]

theorem splitOnChar_no_sep {sep : Char} {l : GoStr} (h : sep ∉ l) :
    splitOnChar sep l = [l] := by
  induction l with
  | nil => rfl
  | cons c cs ih =>
    have hc : ¬ c = sep := fun e => h (e ▸ List.mem_cons_self c cs)
    rw [splitOnChar, if_neg hc, ih (fun m => h (List.mem_cons_of_mem c m))]

theorem splitOnChar_append (sep : Char) (a b : GoStr) (ha : sep ∉ a) (hb : sep ∉ b) :
    splitOnChar sep (a ++ sep :: b) = [a, b] := by
  induction a with
  | nil => rw [List.nil_append, splitOnChar, if_pos rfl, splitOnChar_no_sep hb]
  | cons c cs ih =>
    have hc : ¬ c = sep := fun e => ha (e ▸ List.mem_cons_self c cs)
    rw [List.cons_append, splitOnChar, if_neg hc,
      ih (fun m => ha (List.mem_cons_of_mem c m))]

theorem split_ref (bucket key : GoStr) (hB : ',' ∉ bucket) (hK : ',' ∉ key) :
    splitOnChar ',' (bucket ++ (",").toList ++ key) = [bucket, key] := by
  have e : bucket ++ (",").toList ++ key = bucket ++ ',' :: key := by
    rw [List.append_assoc]; rfl
  rw [e, splitOnChar_append ',' bucket key hB hK]

theorem dbVideoToSignedVideo_ok (cfg : ApiCfg) (v : Video) (bucket key url : GoStr)
    (hv : v.videoURL = some (bucket ++ (",").toList ++ key))
    (hB : ',' ∉ bucket) (hK : ',' ∉ key)
    (hS3 : cfg.s3ClientPresent = true)
    (hPre : cfg.presign bucket key (15 * timeMinute) = Except.ok url) :
    dbVideoToSignedVideo cfg v = ({ v with videoURL := some url }, none) := by
  rw [dbVideoToSignedVideo, hv]
  simp only [split_ref bucket key hB hK]
  rw [if_neg (show ¬([bucket, key].length ≠ 2) by simp)]
  simp [generatePresignedURL, hS3, hPre, List.getD]

theorem comma_not_in_key (aspect vid : GoStr) (hV : ',' ∉ vid) :
    ',' ∉ dirFor aspect ++ vid ++ (".mp4").toList := by
  intro hc
  rcases List.mem_append.mp hc with hc2 | hc2
  · rcases List.mem_append.mp hc2 with hc3 | hc3
    · revert hc3
      unfold dirFor
      split
      · decide
      · split <;> decide
    · exact hV hc3
  · revert hc2; decide

/-- C6: on a fully successful run the value persisted in the record's URL
field is exactly the `bucket,key` StoredObjectRef, and the response carries a
signed URL freshly computed by the presigner from that persisted reference
with a fixed 15-minute expiry; the signed URL itself is never written to the
record store (the only record update in the trace carries the reference). -/
theorem c6_persist_ref_return_fresh_signed (cfg : ApiCfg) (env : UploadEnv)
    (video : Video) (aspect url : GoStr)
    (h1 : env.validID = true) (h2 : env.tokenOk = true) (h3 : env.jwtOk = true)
    (hg : env.getVideo = some video) (ho : video.userID = env.userID)
    (h4 : env.formFileOk = true) (h5 : env.ctParseOk = true)
    (hm : env.mediaType = mp4MediaType)
    (h6 : env.createTempOk = true) (h7 : env.copyOk = true)
    (h8 : env.remuxExitOk = true) (h9 : env.seekOk = true)
    (hpr : getVideoAspectRatio ⟨env.probeExitErr, env.probeStdout⟩ = Except.ok aspect)
    (h10 : env.openProcessedOk = true) (h11 : env.putOk = true) (h12 : env.updateOk = true)
    (hB : ',' ∉ cfg.s3Bucket) (hV : ',' ∉ env.videoIDStr)
    (hS3 : cfg.s3ClientPresent = true)
    (hPre : cfg.presign cfg.s3Bucket (dirFor aspect ++ env.videoIDStr ++ (".mp4").toList)
        (15 * timeMinute) = Except.ok url) :
    handlerUploadVideo cfg env =
      [Event.createFile env.tempName,
       Event.writeFile env.tempName,
       Event.remuxCall env.tempName (env.tempName ++ (".processing").toList),
       Event.createFile (env.tempName ++ (".processing").toList),
       Event.probeCall env.tempName,
       Event.putObject cfg.s3Bucket (dirFor aspect ++ env.videoIDStr ++ (".mp4").toList),
       Event.updateRecord (cfg.s3Bucket ++ (",").toList ++
         (dirFor aspect ++ env.videoIDStr ++ (".mp4").toList)),
       Event.respondOK { video with videoURL := some url },
       Event.removeFile (env.tempName ++ (".processing").toList),
       Event.removeFile env.tempName] := by
  have hdb : dbVideoToSignedVideo cfg
      { video with videoURL := some (cfg.s3Bucket ++ (",").toList ++
        (dirFor aspect ++ env.videoIDStr ++ (".mp4").toList)) } =
      ({ video with videoURL := some url }, none) :=
    dbVideoToSignedVideo_ok cfg _ cfg.s3Bucket
      (dirFor aspect ++ env.videoIDStr ++ (".mp4").toList) url rfl hB
      (comma_not_in_key aspect env.videoIDStr hV) hS3 hPre
  have hfin : uploadFinish cfg env video
      (dirFor aspect ++ env.videoIDStr ++ (".mp4").toList) env.tempName
      (env.tempName ++ (".processing").toList) =
      [Event.updateRecord (cfg.s3Bucket ++ (",").toList ++
         (dirFor aspect ++ env.videoIDStr ++ (".mp4").toList)),
       Event.respondOK { video with videoURL := some url },
       Event.removeFile (env.tempName ++ (".processing").toList),
       Event.removeFile env.tempName] := by
    rw [uploadFinish]
    rw [h12, if_neg (by decide : ¬(true = false)), hdb]
    rfl
  calc handlerUploadVideo cfg env = uploadStage cfg env video := by
        simp [handlerUploadVideo, h1, h2, h3, hg, ho, h4, h5, hm, h6]
    _ = Event.createFile env.tempName :: Event.writeFile env.tempName ::
        Event.remuxCall env.tempName (env.tempName ++ (".processing").toList) ::
        Event.createFile (env.tempName ++ (".processing").toList) ::
        uploadProbe cfg env video env.tempName (env.tempName ++ (".processing").toList) := by
        simp [uploadStage, h7, h8]
    _ = Event.createFile env.tempName :: Event.writeFile env.tempName ::
        Event.remuxCall env.tempName (env.tempName ++ (".processing").toList) ::
        Event.createFile (env.tempName ++ (".processing").toList) ::
        Event.probeCall env.tempName ::
        uploadPut cfg env video (dirFor aspect ++ env.videoIDStr ++ (".mp4").toList)
          env.tempName (env.tempName ++ (".processing").toList) := by
        simp [uploadProbe, h9, hpr]
    _ = Event.createFile env.tempName :: Event.writeFile env.tempName ::
        Event.remuxCall env.tempName (env.tempName ++ (".processing").toList) ::
        Event.createFile (env.tempName ++ (".processing").toList) ::
        Event.probeCall env.tempName ::
        Event.putObject cfg.s3Bucket (dirFor aspect ++ env.videoIDStr ++ (".mp4").toList) ::
        uploadFinish cfg env video (dirFor aspect ++ env.videoIDStr ++ (".mp4").toList)
          env.tempName (env.tempName ++ (".processing").toList) := by
        simp [uploadPut, h10, h11]
    _ = [Event.createFile env.tempName,
         Event.writeFile env.tempName,
         Event.remuxCall env.tempName (env.tempName ++ (".processing").toList),
         Event.createFile (env.tempName ++ (".processing").toList),
         Event.probeCall env.tempName,
         Event.putObject cfg.s3Bucket (dirFor aspect ++ env.videoIDStr ++ (".mp4").toList),
         Event.updateRecord (cfg.s3Bucket ++ (",").toList ++
           (dirFor aspect ++ env.videoIDStr ++ (".mp4").toList)),
         Event.respondOK { video with videoURL := some url },
         Event.removeFile (env.tempName ++ (".processing").toList),
         Event.removeFile env.tempName] := by
        rw [hfin]

theorem c6_witness :
    handlerUploadVideo cfgA envA =
      [Event.createFile (("tmpfile").toList),
       Event.writeFile (("tmpfile").toList),
       Event.remuxCall (("tmpfile").toList) (("tmpfile.processing").toList),
       Event.createFile (("tmpfile.processing").toList),
       Event.probeCall (("tmpfile").toList),
       Event.putObject (("bkt").toList) (("landscape/vid1.mp4").toList),
       Event.updateRecord (("bkt,landscape/vid1.mp4").toList),
       Event.respondOK
         { videoA with videoURL := some (("signed-bkt-landscape/vid1.mp4").toList) },
       Event.removeFile (("tmpfile.processing").toList),
       Event.removeFile (("tmpfile").toList)] :=
  c6_persist_ref_return_fresh_signed cfgA envA videoA (("16:9").toList)
    (("signed-bkt-landscape/vid1.mp4").toList) rfl rfl rfl rfl rfl rfl rfl rfl rfl rfl
    rfl rfl rfl rfl rfl rfl (by decide) (by decide) rfl rfl

/-- C7 counterexample: for a probed stream of width 100 and height 0 the
classifier succeeds with `other` instead of failing with an
invalid-dimensions error — refuting the claim that height ≤ 0 fails. -/
theorem c7_counterexample_zero_height_classified :
    getVideoAspectRatio ⟨none, jsonZeroHeight⟩ = Except.ok (("other").toList) := rfl

/-- C7 amended: the classifier performs no dimension validation: for any
probed stream whose height is not greater than zero it still succeeds,
returning one of the three categories {16:9, 9:16, other}. -/
theorem c7_height_nonpositive_still_classified (c : CmdResult) (w h : Int)
    (rest : List Stream)
    (hrun : c.runErr = none)
    (hparse : jsonUnmarshalFFProbe c.stdout = Except.ok ⟨Stream.mk w h :: rest⟩)
    (hh : h ≤ 0) :
    getVideoAspectRatio c = Except.ok (classifyDims w h) ∧
    (classifyDims w h = ("16:9").toList ∨ classifyDims w h = ("9:16").toList ∨
      classifyDims w h = ("other").toList) := by
  constructor
  · simp [getVideoAspectRatio, hrun, hparse]
  · unfold classifyDims
    split
    · exact Or.inl rfl
    · split
      · exact Or.inr (Or.inl rfl)
      · exact Or.inr (Or.inr rfl)

theorem c7_witness :
    (0 : Int) ≤ 0 ∧
    (getVideoAspectRatio ⟨none, jsonZeroHeight⟩ = Except.ok (classifyDims 100 0) ∧
     (classifyDims 100 0 = ("16:9").toList ∨ classifyDims 100 0 = ("9:16").toList ∨
       classifyDims 100 0 = ("other").toList)) :=
  ⟨le_refl 0, c7_height_nonpositive_still_classified ⟨none, jsonZeroHeight⟩ 100 0 []
    rfl rfl (le_refl 0)⟩

/-- C8 counterexample: a zero exit with empty output fails with the JSON
parse error `unexpected end of JSON input`, which is a different error from
`no streams found in the video file` — refuting the claim that empty output
yields the NoStreamData error. -/
theorem c8_counterexample_empty_output_parse_error :
    getVideoAspectRatio ⟨none, []⟩ =
      Except.error (("unexpected end of JSON input").toList) ∧
    ("unexpected end of JSON input").toList ≠
      ("no streams found in the video file").toList :=
  ⟨rfl, by decide⟩

/-- C8 amended: a zero exit with empty output yields the JSON parse error,
while well-formed output with zero stream entries yields the distinct
`no streams found in the video file` error; exit code alone is never taken as
success. -/
theorem c8_empty_output_vs_zero_streams :
    getVideoAspectRatio ⟨none, []⟩ =
      Except.error (("unexpected end of JSON input").toList) ∧
    getVideoAspectRatio ⟨none, jsonEmptyStreams⟩ =
      Except.error (("no streams found in the video file").toList) ∧
    ("unexpected end of JSON input").toList ≠
      ("no streams found in the video file").toList :=
  ⟨rfl, rfl, by decide⟩

/-- C9: when the authenticated requester does not own the target video, the
thumbnail handler has already created and written the asset file at
`assetsRoot/<videoID>.<extension>` before the ownership check rejects the
request with 401, and the file is still present afterwards. -/
theorem c9_thumbnail_written_before_ownership (cfg : ApiCfg) (env : ThumbEnv)
    (video : Video)
    (h1 : env.validID = true) (h2 : env.tokenOk = true) (h3 : env.jwtOk = true)
    (h4 : env.formFileOk = true) (h5 : env.ctParseOk = true)
    (hm : env.mediaType = jpegMediaType ∨ env.mediaType = pngMediaType)
    (h6 : env.createOk = true) (h7 : env.copyOk = true)
    (hg : env.getVideo = some video) (ho : video.userID ≠ env.userID) :
    handlerUploadThumbnail cfg env =
      [Event.createFile (cfg.assetsRoot ++ ("/").toList ++
         (env.videoIDStr ++ (".").toList ++ extFor env.mediaType)),
       Event.writeFile (cfg.assetsRoot ++ ("/").toList ++
         (env.videoIDStr ++ (".").toList ++ extFor env.mediaType)),
       Event.respondErr 401] ∧
    runFS [] (handlerUploadThumbnail cfg env) =
      [cfg.assetsRoot ++ ("/").toList ++
        (env.videoIDStr ++ (".").toList ++ extFor env.mediaType)] := by
  have hmt : ¬(env.mediaType ≠ jpegMediaType ∧ env.mediaType ≠ pngMediaType) := by
    rcases hm with hm | hm <;> simp [hm]
  have htr : handlerUploadThumbnail cfg env =
      [Event.createFile (cfg.assetsRoot ++ ("/").toList ++
         (env.videoIDStr ++ (".").toList ++ extFor env.mediaType)),
       Event.writeFile (cfg.assetsRoot ++ ("/").toList ++
         (env.videoIDStr ++ (".").toList ++ extFor env.mediaType)),
       Event.respondErr 401] := by
    simp [handlerUploadThumbnail, h1, h2, h3, h4, h5, hmt, h6, h7, hg, ho]
  exact ⟨htr, by rw [htr]; rfl⟩

theorem c9_witness :
    videoA.userID ≠ envT.userID ∧
    (handlerUploadThumbnail cfgA envT =
      [Event.createFile (("assets/vid1.png").toList),
       Event.writeFile (("assets/vid1.png").toList),
       Event.respondErr 401] ∧
     runFS [] (handlerUploadThumbnail cfgA envT) = [("assets/vid1.png").toList]) :=
  ⟨by decide,
   c9_thumbnail_written_before_ownership cfgA envT videoA rfl rfl rfl rfl rfl
     (Or.inr rfl) rfl rfl rfl (by decide)⟩

/-- C10: `dbVideoToSignedVideo` returns a nil-URL video unchanged with no
error; returns an error together with the unchanged video when the stored URL
does not split on `","` into exactly two parts; and on success returns a copy
of the video with the presigned URL in place of the stored reference, never
mutating its input. -/
theorem c10_dbVideoToSignedVideo_cases :
    (∀ (cfg : ApiCfg) (v : Video), v.videoURL = none →
        dbVideoToSignedVideo cfg v = (v, none)) ∧
    (∀ (cfg : ApiCfg) (v : Video) (u : GoStr), v.videoURL = some u →
        (splitOnChar ',' u).length ≠ 2 →
        dbVideoToSignedVideo cfg v =
          (v, some ((("invalid video URL format: ").toList) ++ u))) ∧
    (∀ (cfg : ApiCfg) (v : Video) (bucket key url : GoStr),
        v.videoURL = some (bucket ++ (",").toList ++ key) →
        ',' ∉ bucket → ',' ∉ key →
        cfg.s3ClientPresent = true →
        cfg.presign bucket key (15 * timeMinute) = Except.ok url →
        dbVideoToSignedVideo cfg v = ({ v with videoURL := some url }, none)) := by
  refine ⟨fun cfg v hv => ?_, fun cfg v u hv hsplit => ?_,
    fun cfg v bucket key url hv hB hK hS3 hPre => ?_⟩
  · rw [dbVideoToSignedVideo, hv]
  · rw [dbVideoToSignedVideo, hv]
    simp only [if_pos hsplit]
  · exact dbVideoToSignedVideo_ok cfg v bucket key url hv hB hK hS3 hPre

theorem c10_witness :
    dbVideoToSignedVideo cfgA videoA = (videoA, none) ∧
    dbVideoToSignedVideo cfgA videoBadURL =
      (videoBadURL, some ((("invalid video URL format: ").toList) ++ ("nocomma").toList)) ∧
    dbVideoToSignedVideo cfgA videoRefURL =
      ({ videoRefURL with videoURL := some (("signed-bkt-landscape/vid1.mp4").toList) },
        none) :=
  ⟨c10_dbVideoToSignedVideo_cases.1 cfgA videoA rfl,
   c10_dbVideoToSignedVideo_cases.2.1 cfgA videoBadURL (("nocomma").toList) rfl (by decide),
   c10_dbVideoToSignedVideo_cases.2.2 cfgA videoRefURL (("bkt").toList)
     (("landscape/vid1.mp4").toList) (("signed-bkt-landscape/vid1.mp4").toList)
     rfl (by decide) (by decide) rfl rfl⟩

theorem ratMul_eq_mul (a b : ℚ) : ratMul a b = a * b := by
  have ha : (a.den : Int) ≠ 0 := Int.natCast_ne_zero.mpr a.den_nz
  have hb : (b.den : Int) ≠ 0 := Int.natCast_ne_zero.mpr b.den_nz
  rw [ratMul, ← Rat.divInt_mul_divInt _ _ ha hb, Rat.num_divInt_den, Rat.num_divInt_den]

theorem ratSub_eq_sub (a b : ℚ) : ratSub a b = a - b := by
  have ha : (a.den : Int) ≠ 0 := Int.natCast_ne_zero.mpr a.den_nz
  have hb : (b.den : Int) ≠ 0 := Int.natCast_ne_zero.mpr b.den_nz
  rw [ratSub, ← Rat.divInt_sub_divInt _ _ ha hb, Rat.num_divInt_den, Rat.num_divInt_den]

theorem landscape_cond64_iff (w h : Int) :
    (w * 9 == h * 16
        || isApproximately (F64.div (intToF64 w) (intToF64 h)) fl16Of9) = true ↔
      (w * 9 = h * 16 ∨
        F64.le (F64.abs (F64.sub (F64.div (intToF64 w) (intToF64 h)) fl16Of9))
          (F64.mul fl16Of9 fl005) = true) := by
  rw [Bool.or_eq_true, beq_iff_eq, isApproximately]

theorem portrait_cond64_iff (w h : Int) :
    (w * 16 == h * 9
        || isApproximately (F64.div (intToF64 w) (intToF64 h)) fl9Of16) = true ↔
      (w * 16 = h * 9 ∨
        F64.le (F64.abs (F64.sub (F64.div (intToF64 w) (intToF64 h)) fl9Of16))
          (F64.mul fl9Of16 fl005) = true) := by
  rw [Bool.or_eq_true, beq_iff_eq, isApproximately]

/-- C1 counterexample: the input 28x15, whose ratio is exactly 1.05 times
16/9 — inside the claimed 5% relative band, inclusively, and not
cross-multiplication equal — is classified `other` by the program: under
IEEE-754 double rounding the computed difference `fl(fl(28/15) − fl(16/9))`
exceeds the computed allowance `fl(fl(16/9)·fl(0.05))`, so the tolerance
check is not inclusive at exactly 5.0% as the claim states. -/
theorem c1_counterexample_boundary_excluded :
    |(28 : ℚ) / 15 - 16 / 9| = 16 / 9 * (5 / 100) ∧
    (28 : Int) * 9 ≠ 15 * 16 ∧
    classifyDims 28 15 = ("other").toList := by
  refine ⟨by norm_num, by decide, by decide⟩

/-- C1 amended: the source classifier agrees everywhere with the claim's
structure — exact cross-multiplication evaluated before the tolerance check,
landscape tests before portrait tests, default other — with the 5% relative
tolerance comparison executed in IEEE-754 double precision; a ratio strictly
inside the band but not cross-multiplied equal (1280x721) is landscape, the
mathematically exact 5.0% boundary (28x15) is excluded by double rounding and
classifies other, and a ratio just beyond the band (2801x1500) is other. -/
theorem c1_classifier_float64_behavior :
    (∀ width height : Int, classifyDims width height = classifySpec64 width height) ∧
    classifyDims 1280 721 = ("16:9").toList ∧
    classifyDims 28 15 = ("other").toList ∧
    classifyDims 2801 1500 = ("other").toList := by
  refine ⟨fun w h => ?_, by decide, by decide, by decide⟩
  unfold classifyDims classifySpec64
  exact if_congr (landscape_cond64_iff w h) rfl (if_congr (portrait_cond64_iff w h) rfl rfl)

theorem c4_witness :
    envBadType.mediaType ≠ mp4MediaType ∧
    ((handlerUploadVideo cfgA envBadType).any isCreateB = false ∧
     (handlerUploadVideo cfgA envBadType).any isPutB = false) :=
  ⟨by decide, c4_reject_before_staging cfgA envBadType (Or.inl (by decide))⟩

theorem c5_witness :
    (handlerUploadVideo cfgA envA).any isUpdateB = true ∧
    (envA.putOk = true ∧
     (handlerUploadVideo cfgA envA).any isPutB = true ∧
     (handlerUploadVideo cfgA envA).findIdx isPutB <
       (handlerUploadVideo cfgA envA).findIdx isUpdateB) :=
  ⟨by decide, c5_no_record_update_without_upload cfgA envA (by decide)⟩

end Tubely
